import Mathlib

/-!
Shallow embedding of `src/main.rs` of the solana-rpc-benchmark tool.

The program parses a comma-separated endpoint list, spawns one worker
thread per endpoint, and each worker probes its endpoint with a fixed
sequence of RPC calls (block height, then latest blockhash with one
fallback, then transaction submission and confirmation-slot lookup),
recording outcomes into a `BenchmarkResult` that is finalized by
`complete()` and rendered by `display()` in spawn order.

Modelling choices:
- Machine integers (`u64` block heights, slots) are modelled as `Nat`;
  the program only stores and prints them, never does arithmetic on them.
- `Instant` / `SystemTime` timestamps are modelled as `Nat` supplied by
  the caller; `Instant::duration_since` saturates at zero and is modelled
  by truncated `Nat` subtraction.
- The chrono wall-clock rendering and the `Duration` debug rendering are
  external deterministic functions of the timestamp; they are modelled by
  decimal rendering (`toString`), which preserves exactly what the claims
  depend on: which branch of `display` is taken and determinism.
- `Signature` and blockhash values are opaque to this program (stored and
  printed only) and are modelled as `String`.
- Each RPC call is modelled by an `Except String` outcome supplied by an
  `RpcEnv`; the worker additionally returns the ordered trace of the
  remote calls it made and of its `complete()` finalization, so that
  "call count" and "called before return" properties are statable.
-/

namespace SolanaRpcBenchmark

/-! ### Endpoint list parser (main.rs lines 140-144)

`args.endpoints.split(',').map(|s| s.trim().to_string()).collect()`.

`splitComma` models Rust `str::split(',')` character-wise: it always
yields one (possibly empty) segment more than the number of commas; on
the empty string it yields one empty segment. `trimChars` models
`str::trim` (leading and trailing whitespace removed; the Unicode
whitespace class is approximated by `Char.isWhitespace`, which covers
every whitespace character this program can plausibly meet). -/

def splitComma : List Char → List (List Char)
  | [] => [[]]
  | c :: rest =>
      if c = ',' then [] :: splitComma rest
      else
        match splitComma rest with
        | [] => [[c]]
        | s :: ss => (c :: s) :: ss

def trimChars (cs : List Char) : List Char :=
  ((cs.dropWhile Char.isWhitespace).reverse.dropWhile Char.isWhitespace).reverse

def parseEndpoints (s : String) : List String :=
  (splitComma s.data).map (fun cs => String.mk (trimChars cs))

/-- Spec-side reconstruction of a comma-separated string from its
segments, used to state what the parser returns on a general input. -/
def joinComma : List (List Char) → List Char
  | [] => []
  | [p] => p
  | p :: q :: rest => p ++ ',' :: joinComma (q :: rest)

/-! ### BenchmarkResult (main.rs lines 13-69) -/

structure BenchmarkResult where
  endpoint : String
  start_time : Nat
  start_system_time : Nat
  end_time : Option Nat
  end_system_time : Option Nat
  block_height : Option Nat
  error : Option String
  transaction_signature : Option String
  transaction_block_height : Option Nat
deriving DecidableEq

namespace BenchmarkResult

/-- `BenchmarkResult::new` (lines 27-39); `Instant::now()` /
`SystemTime::now()` are the caller-supplied timestamp `now`. -/
def new (endpoint : String) (now : Nat) : BenchmarkResult :=
  { endpoint := endpoint
    start_time := now
    start_system_time := now
    end_time := none
    end_system_time := none
    block_height := none
    error := none
    transaction_signature := none
    transaction_block_height := none }

/-- `BenchmarkResult::complete` (lines 41-44). -/
def complete (r : BenchmarkResult) (now : Nat) : BenchmarkResult :=
  { r with end_time := some now, end_system_time := some now }

/-- `BenchmarkResult::duration` (lines 46-48); `duration_since`
saturates at zero, modelled by truncated subtraction. -/
def duration (r : BenchmarkResult) : Option Nat :=
  r.end_time.map (fun e => e - r.start_time)

def set_error (r : BenchmarkResult) (e : String) : BenchmarkResult :=
  { r with error := some e }

def set_block_height (r : BenchmarkResult) (height : Nat) : BenchmarkResult :=
  { r with block_height := some height }

def set_transaction_signature (r : BenchmarkResult) (sig : String) : BenchmarkResult :=
  { r with transaction_signature := some sig }

def set_transaction_block_height (r : BenchmarkResult) (height : Nat) : BenchmarkResult :=
  { r with transaction_block_height := some height }

/-- `format_system_time` (lines 66-69): the chrono rendering is an
external deterministic function of the timestamp, modelled by decimal
rendering. -/
def format_system_time (time : Nat) : String :=
  toString time

/-- The `duration` let-binding of `display` (lines 72-75): the
`{:.2?}` debug rendering of `Duration` is modelled by decimal
rendering. -/
def durationStr (r : BenchmarkResult) : String :=
  match r.duration with
  | some d => toString d
  | none => "N/A"

/-- The `status` let-binding of `display` (lines 77-83). -/
def status (r : BenchmarkResult) : String :=
  match r.block_height with
  | some height => "Success (Block Height: " ++ toString height ++ ")"
  | none =>
    match r.error with
    | some err => "Error: " ++ err
    | none => "Unknown Status"

/-- The `end_time` let-binding of `display` (lines 86-89). -/
def endTimeStr (r : BenchmarkResult) : String :=
  match r.end_system_time with
  | some t => format_system_time t
  | none => "N/A"

/-- The `tx_signature` let-binding of `display` (lines 91-94). -/
def txSignatureStr (r : BenchmarkResult) : String :=
  match r.transaction_signature with
  | some sig => sig
  | none => "No signature"

/-- The `tx_block_height` let-binding of `display` (lines 96-99). -/
def txBlockHeightStr (r : BenchmarkResult) : String :=
  match r.transaction_block_height with
  | some h => toString h
  | none => "N/A"

/-- The `error_details` let-binding of `display` (lines 101-105). -/
def errorDetails (r : BenchmarkResult) : String :=
  match r.error with
  | some err => "Error Details: " ++ err ++ "\n"
  | none => ""

/-- `BenchmarkResult::display` (lines 71-118): the final `format!`
call, a pure function of the fields (`&self`, no mutation). -/
def display (r : BenchmarkResult) : String :=
  "Endpoint: " ++ r.endpoint ++
  "\nStart Time: " ++ format_system_time r.start_system_time ++
  "\nEnd Time: " ++ r.endTimeStr ++
  "\nStatus: " ++ r.status ++
  "\nTransaction Signature: " ++ r.txSignatureStr ++
  "\nTransaction Block Height: " ++ r.txBlockHeightStr ++
  "\n" ++ r.errorDetails ++
  "Duration: " ++ r.durationStr ++ "\n"

end BenchmarkResult

/-! ### Probe worker (main.rs lines 157-241) -/

/-- One observable action of a worker: a remote call through the
`RpcClient`, or the `complete()` finalization of its result. -/
inductive Event where
  | getBlockHeight
  | getLatestBlockhash
  | getLatestBlockhashWithCommitment
  | sendAndConfirmTransaction
  | getSlotWithCommitment
  | complete
deriving DecidableEq

/-- The outcomes the remote endpoint gives to each RPC method the worker
may call (each method is called at most once per worker, so one outcome
per method suffices). Errors carry their rendered message string. -/
structure RpcEnv where
  get_block_height : Except String Nat
  get_latest_blockhash : Except String String
  get_latest_blockhash_with_commitment : Except String String
  send_and_confirm_transaction : Except String String
  get_slot_with_commitment : Except String Nat

/-- The tail of the worker after a blockhash was obtained (main.rs lines
207-240): sign, submit via `send_and_confirm_transaction`, on success
record the signature and look up the confirmation slot, then
`complete()` and return. `tr` is the trace of the events so far.
The blockhash value itself only feeds transaction construction, which is
out of scope (opaque library call), so it is not a parameter here. -/
def workerSubmit (env : RpcEnv) (endT : Nat) (result : BenchmarkResult)
    (tr : List Event) : BenchmarkResult × List Event :=
  match env.send_and_confirm_transaction with
  | Except.ok sig =>
      let result := result.set_transaction_signature sig
      match env.get_slot_with_commitment with
      | Except.ok slot =>
          let result := result.set_transaction_block_height slot
          let result := result.complete endT
          (result, tr ++ [Event.sendAndConfirmTransaction,
                          Event.getSlotWithCommitment, Event.complete])
      | Except.error err =>
          let result :=
            result.set_error ("Failed to get transaction block height: " ++ err)
          let result := result.complete endT
          (result, tr ++ [Event.sendAndConfirmTransaction,
                          Event.getSlotWithCommitment, Event.complete])
  | Except.error err =>
      let result := result.set_error ("Transaction failed: " ++ err)
      let result := result.complete endT
      (result, tr ++ [Event.sendAndConfirmTransaction, Event.complete])

/-- The worker closure spawned per endpoint (main.rs lines 157-241):
`get_block_height` short-circuits on failure; otherwise
`get_latest_blockhash` with a single fallback to
`get_latest_blockhash_with_commitment`; if both fail, finalize without
submitting; otherwise continue with `workerSubmit`. `startT` and `endT`
are the timestamps taken by `new` and `complete`. The returned trace
lists the remote calls made and the finalization, in program order. -/
def runWorker (env : RpcEnv) (startT endT : Nat) (endpoint : String) :
    BenchmarkResult × List Event :=
  let result := BenchmarkResult.new endpoint startT
  match env.get_block_height with
  | Except.error err =>
      let result := result.set_error err
      let result := result.complete endT
      (result, [Event.getBlockHeight, Event.complete])
  | Except.ok height =>
      let result := result.set_block_height height
      match env.get_latest_blockhash with
      | Except.ok _blockhash =>
          workerSubmit env endT result
            [Event.getBlockHeight, Event.getLatestBlockhash]
      | Except.error _ =>
          match env.get_latest_blockhash_with_commitment with
          | Except.ok _blockhash =>
              workerSubmit env endT result
                [Event.getBlockHeight, Event.getLatestBlockhash,
                 Event.getLatestBlockhashWithCommitment]
          | Except.error _ =>
              let result := result.set_error
                "Failed to get blockhash: All available methods failed"
              let result := result.complete endT
              (result,
               [Event.getBlockHeight, Event.getLatestBlockhash,
                Event.getLatestBlockhashWithCommitment, Event.complete])

/-! ### Aggregator / reporter and `main` (main.rs lines 133-259) -/

/-- The report loop (main.rs lines 254-258): one block per result, in
list order, numbered from 1 (`Endpoint #{i+1}` followed by
`result.display()`). -/
def reportBlocks (results : List BenchmarkResult) : List (Nat × String) :=
  results.enum.map (fun p => (p.1 + 1, p.2.display))

/-- `main` (lines 133-259). `keypairRead` is the outcome of
`read_keypair_file` (the key-file contents are opaque and unused by the
probe model, so only success/failure matters); `unwrap` on its failure
panics, modelled as `Except.error` before anything else runs. Otherwise
the endpoint list is parsed, one worker runs per endpoint, the handles
are joined in spawn order — so the result list is ordered by input
position regardless of which worker finished first — and the report is
rendered. The second component collects every worker's event trace. -/
def runMain (keypairRead : Except String Unit) (env : String → RpcEnv)
    (startT endT : Nat) (input : String) :
    Except String (List (Nat × String) × List Event) :=
  match keypairRead with
  | Except.error e => Except.error e
  | Except.ok _ =>
      let endpoints := parseEndpoints input
      let outs := endpoints.map (fun ep => runWorker (env ep) startT endT ep)
      Except.ok (reportBlocks (outs.map Prod.fst), (outs.map Prod.snd).flatten)

/-! ### Helper lemmas about the parser -/

lemma splitComma_no_comma (p : List Char) (h : ',' ∉ p) : splitComma p = [p] := by
  induction p with
  | nil => rfl
  | cons c rest ih =>
      have hc : c ≠ ',' := fun hc => h (by simp [hc])
      have hrest : ',' ∉ rest := fun hm => h (List.mem_cons_of_mem c hm)
      simp [splitComma, hc, ih hrest]

lemma splitComma_append_comma (p rest : List Char) (h : ',' ∉ p) :
    splitComma (p ++ ',' :: rest) = p :: splitComma rest := by
  induction p with
  | nil => simp [splitComma]
  | cons c p' ih =>
      have hc : c ≠ ',' := fun hc => h (by simp [hc])
      have hp' : ',' ∉ p' := fun hm => h (List.mem_cons_of_mem c hm)
      simp [splitComma, hc, ih hp']

/-- `splitComma` recovers exactly the comma-free segments a
comma-separated string was assembled from, in order, duplicates and
empty segments included. -/
lemma splitComma_joinComma (parts : List (List Char)) (hne : parts ≠ [])
    (hc : ∀ p ∈ parts, ',' ∉ p) :
    splitComma (joinComma parts) = parts := by
  induction parts with
  | nil => exact absurd rfl hne
  | cons p parts ih =>
      cases parts with
      | nil => simpa [joinComma] using splitComma_no_comma p (hc p (by simp))
      | cons q rest =>
          have h1 : ',' ∉ p := hc p (by simp)
          have h2 : ∀ x ∈ q :: rest, ',' ∉ x := fun x hx => hc x (by simp [hx])
          simp [joinComma, splitComma_append_comma p _ h1, ih (by simp) h2]

/-! ### Helper lemmas about the reporter -/

lemma enumFrom_map_fst_add_one {α : Type} (rs : List α) :
    ∀ n, (List.enumFrom n rs).map (fun p => p.1 + 1) = List.range' (n + 1) rs.length := by
  induction rs with
  | nil => intro n; rfl
  | cons a rs ih =>
      intro n
      simp [List.enumFrom, ih (n + 1), List.range'_succ (n + 1) rs.length 1]

lemma enumFrom_map_snd_comp {α β : Type} (f : α → β) (rs : List α) (n : Nat) :
    (List.enumFrom n rs).map (fun p => f p.2) = rs.map f := by
  have h : (fun p : Nat × α => f p.2) = f ∘ Prod.snd := rfl
  rw [h, ← List.map_map, List.enumFrom_map_snd]

lemma reportBlocks_length (rs : List BenchmarkResult) :
    (reportBlocks rs).length = rs.length := by
  simp [reportBlocks]

/-- The report numbers its blocks `1, 2, …, n` in order. -/
lemma reportBlocks_map_fst (rs : List BenchmarkResult) :
    (reportBlocks rs).map Prod.fst = List.range' 1 rs.length := by
  simp only [reportBlocks, List.map_map, List.enum]
  exact enumFrom_map_fst_add_one rs 0

/-- The report bodies are the displays of the results, in order. -/
lemma reportBlocks_map_snd (rs : List BenchmarkResult) :
    (reportBlocks rs).map Prod.snd = rs.map BenchmarkResult.display := by
  simp only [reportBlocks, List.map_map, List.enum]
  exact enumFrom_map_snd_comp BenchmarkResult.display rs 0

/-- Every path of the worker ends in exactly one `complete()`, as its
last action, and leaves both end timestamps set. -/
lemma runWorker_finalized (env : RpcEnv) (startT endT : Nat) (endpoint : String) :
    (runWorker env startT endT endpoint).2.count Event.complete = 1 ∧
    (runWorker env startT endT endpoint).2.getLast? = some Event.complete ∧
    (runWorker env startT endT endpoint).1.end_time = some endT ∧
    (runWorker env startT endT endpoint).1.end_system_time = some endT := by
  rcases hbh : env.get_block_height with e | height
  · simp [runWorker, hbh, BenchmarkResult.new, BenchmarkResult.set_error,
          BenchmarkResult.complete, List.count_cons]
  · rcases h1 : env.get_latest_blockhash with e1 | b
    · rcases h2 : env.get_latest_blockhash_with_commitment with e2 | b2
      · simp [runWorker, hbh, h1, h2, BenchmarkResult.new, BenchmarkResult.set_error,
              BenchmarkResult.set_block_height, BenchmarkResult.complete, List.count_cons]
      · rcases hs : env.send_and_confirm_transaction with es | sig
        · simp [runWorker, workerSubmit, hbh, h1, h2, hs, BenchmarkResult.new,
                BenchmarkResult.set_error, BenchmarkResult.set_block_height,
                BenchmarkResult.complete, List.count_cons]
        · rcases hslot : env.get_slot_with_commitment with esl | slot <;>
            simp [runWorker, workerSubmit, hbh, h1, h2, hs, hslot, BenchmarkResult.new,
                  BenchmarkResult.set_error, BenchmarkResult.set_block_height,
                  BenchmarkResult.set_transaction_signature,
                  BenchmarkResult.set_transaction_block_height,
                  BenchmarkResult.complete, List.count_cons]
    · rcases hs : env.send_and_confirm_transaction with es | sig
      · simp [runWorker, workerSubmit, hbh, h1, hs, BenchmarkResult.new,
              BenchmarkResult.set_error, BenchmarkResult.set_block_height,
              BenchmarkResult.complete, List.count_cons]
      · rcases hslot : env.get_slot_with_commitment with esl | slot <;>
          simp [runWorker, workerSubmit, hbh, h1, hs, hslot, BenchmarkResult.new,
                BenchmarkResult.set_error, BenchmarkResult.set_block_height,
                BenchmarkResult.set_transaction_signature,
                BenchmarkResult.set_transaction_block_height,
                BenchmarkResult.complete, List.count_cons]

/-! ### The claims -/

/-- Claim C1: for every input configuration, the run emits exactly one
report block per parsed endpoint (`blocks.length` equals the parsed
list's length), numbered sequentially `1, 2, …, n` (`map Prod.fst` is
`range' 1 n`), and block `i` is the rendering of the result the worker
for the `i`-th input endpoint produced (`map Prod.snd` is the in-order
map of displays). Worker completion order cannot influence this: the
program joins the handles in spawn order, which is how `runMain`
aggregates, so the report is a function of input order alone. -/
theorem claim_C1_report_blocks_in_input_order (env : String → RpcEnv)
    (startT endT : Nat) (input : String) :
    ∃ blocks traces,
      runMain (Except.ok ()) env startT endT input = Except.ok (blocks, traces) ∧
      blocks.length = (parseEndpoints input).length ∧
      blocks.map Prod.fst = List.range' 1 (parseEndpoints input).length ∧
      blocks.map Prod.snd =
        (parseEndpoints input).map
          (fun ep => ((runWorker (env ep) startT endT ep).1).display) := by
  refine ⟨_, _, rfl, ?_, ?_, ?_⟩
  · simp [reportBlocks_length]
  · simp [reportBlocks_map_fst]
  · simp [reportBlocks_map_snd, List.map_map]

/-- Claim C2, counterexample: the parser does not filter empty
segments. On the empty input string it returns the one-element sequence
`[""]` — not the empty sequence — and that element is the empty string,
so the claim's "containing only non-empty strings" and "for the empty
input string it returns the empty sequence" are both false on the code
(`"".split(',')` yields one empty segment and `main` never drops it, so
one worker is spawned for the endpoint `""`). -/
theorem claim_C2_counterexample :
    parseEndpoints "" = [""] ∧ parseEndpoints "" ≠ [] ∧
    ¬ (∀ x ∈ parseEndpoints "", x ≠ "") := by
  refine ⟨by decide, by decide, fun hall => hall "" (by decide) rfl⟩

/-- Claim C2 as amended: for every input assembled from comma-free
segments, the parser returns exactly those segments trimmed, in order,
duplicates and empty segments preserved; for the empty input string it
returns the one-element sequence `[""]`, so one worker is spawned (for
the endpoint `""`) and the report has exactly one block, numbered 1. -/
theorem claim_C2_parser_trims_segments (parts : List (List Char))
    (hne : parts ≠ []) (hcomma : ∀ p ∈ parts, ',' ∉ p) :
    parseEndpoints (String.mk (joinComma parts)) =
      parts.map (fun p => String.mk (trimChars p)) ∧
    parseEndpoints "" = [""] ∧
    (∀ (env : String → RpcEnv) (startT endT : Nat),
      runMain (Except.ok ()) env startT endT "" =
        Except.ok ([(1, ((runWorker (env "") startT endT "").1).display)],
                   (runWorker (env "") startT endT "").2)) := by
  refine ⟨?_, by decide, fun env startT endT => ?_⟩
  · show (splitComma (String.mk (joinComma parts)).data).map _ = _
    rw [show (String.mk (joinComma parts)).data = joinComma parts from rfl,
        splitComma_joinComma parts hne hcomma]
  · have hp : parseEndpoints "" = [""] := by decide
    have hmk : String.mk (trimChars []) = "" := by decide
    simp [runMain, hp, hmk, reportBlocks, List.enum, List.enumFrom]

/-- Claim C2 witness: instantiating the amended claim on the two
comma-free segments `"a"` and `" b"` gives the parse `["a", "b"]` of
the string `"a, b"`. -/
theorem claim_C2_parser_trims_segments_witness :
    parseEndpoints "a, b" = ["a", "b"] := by
  have h := (claim_C2_parser_trims_segments [['a'], [' ', 'b']]
    (by decide) (by decide)).1
  rw [show String.mk (joinComma [['a'], [' ', 'b']]) = "a, b" from by decide] at h
  rw [h]; decide

/-- Claim C3: when the liveness query `get_block_height` fails with
message `e`, the worker's Result has the error string set to `e`, the
block-height metric unset, and both end timestamps present
(`complete()` was called), and its trace consists of only that one
remote call followed by finalization — in particular neither blockhash
method nor the submission is ever called for that endpoint. -/
theorem claim_C3_liveness_failure_short_circuit (env : RpcEnv)
    (startT endT : Nat) (endpoint : String) (e : String)
    (h : env.get_block_height = Except.error e) :
    (runWorker env startT endT endpoint).1.error = some e ∧
    (runWorker env startT endT endpoint).1.block_height = none ∧
    (runWorker env startT endT endpoint).1.end_time = some endT ∧
    (runWorker env startT endT endpoint).1.end_system_time = some endT ∧
    (runWorker env startT endT endpoint).2 = [Event.getBlockHeight, Event.complete] ∧
    (runWorker env startT endT endpoint).2.count Event.getLatestBlockhash = 0 ∧
    (runWorker env startT endT endpoint).2.count Event.getLatestBlockhashWithCommitment = 0 ∧
    (runWorker env startT endT endpoint).2.count Event.sendAndConfirmTransaction = 0 := by
  simp [runWorker, h, BenchmarkResult.new, BenchmarkResult.set_error,
        BenchmarkResult.complete, List.count_cons, List.count_nil]

/-- Claim C3 witness: a concrete endpoint whose liveness query fails
with "connection refused". -/
theorem claim_C3_liveness_failure_short_circuit_witness :
    (runWorker ⟨Except.error "connection refused", Except.ok "bh", Except.ok "bh",
        Except.ok "sig", Except.ok 7⟩ 0 5 "http://a").1.error = some "connection refused" ∧
    (runWorker ⟨Except.error "connection refused", Except.ok "bh", Except.ok "bh",
        Except.ok "sig", Except.ok 7⟩ 0 5 "http://a").1.block_height = none ∧
    (runWorker ⟨Except.error "connection refused", Except.ok "bh", Except.ok "bh",
        Except.ok "sig", Except.ok 7⟩ 0 5 "http://a").1.end_time = some 5 ∧
    (runWorker ⟨Except.error "connection refused", Except.ok "bh", Except.ok "bh",
        Except.ok "sig", Except.ok 7⟩ 0 5 "http://a").1.end_system_time = some 5 ∧
    (runWorker ⟨Except.error "connection refused", Except.ok "bh", Except.ok "bh",
        Except.ok "sig", Except.ok 7⟩ 0 5 "http://a").2 =
      [Event.getBlockHeight, Event.complete] ∧
    (runWorker ⟨Except.error "connection refused", Except.ok "bh", Except.ok "bh",
        Except.ok "sig", Except.ok 7⟩ 0 5 "http://a").2.count Event.getLatestBlockhash = 0 ∧
    (runWorker ⟨Except.error "connection refused", Except.ok "bh", Except.ok "bh",
        Except.ok "sig", Except.ok 7⟩ 0 5 "http://a").2.count
      Event.getLatestBlockhashWithCommitment = 0 ∧
    (runWorker ⟨Except.error "connection refused", Except.ok "bh", Except.ok "bh",
        Except.ok "sig", Except.ok 7⟩ 0 5 "http://a").2.count
      Event.sendAndConfirmTransaction = 0 :=
  claim_C3_liveness_failure_short_circuit _ 0 5 "http://a" "connection refused" rfl

/-- Claim C4: when the liveness query succeeds but both reference-hash
methods fail (each is attempted exactly once, as the trace shows), the
worker finalizes the Result with the descriptive error string and never
calls the transaction submission (submission call count is zero). -/
theorem claim_C4_blockhash_double_failure_no_submission (env : RpcEnv)
    (startT endT : Nat) (endpoint : String) (height : Nat) (e1 e2 : String)
    (hbh : env.get_block_height = Except.ok height)
    (h1 : env.get_latest_blockhash = Except.error e1)
    (h2 : env.get_latest_blockhash_with_commitment = Except.error e2) :
    (runWorker env startT endT endpoint).1.error =
      some "Failed to get blockhash: All available methods failed" ∧
    (runWorker env startT endT endpoint).1.end_time = some endT ∧
    (runWorker env startT endT endpoint).1.end_system_time = some endT ∧
    (runWorker env startT endT endpoint).2 =
      [Event.getBlockHeight, Event.getLatestBlockhash,
       Event.getLatestBlockhashWithCommitment, Event.complete] ∧
    (runWorker env startT endT endpoint).2.count Event.sendAndConfirmTransaction = 0 := by
  simp [runWorker, hbh, h1, h2, BenchmarkResult.new, BenchmarkResult.set_error,
        BenchmarkResult.set_block_height, BenchmarkResult.complete, List.count_cons]

/-- Claim C4 witness: a concrete endpoint that is live (height 100) but
where both blockhash methods fail. -/
theorem claim_C4_blockhash_double_failure_no_submission_witness :
    (runWorker ⟨Except.ok 100, Except.error "timeout", Except.error "timeout again",
        Except.ok "sig", Except.ok 7⟩ 0 5 "http://a").1.error =
      some "Failed to get blockhash: All available methods failed" ∧
    (runWorker ⟨Except.ok 100, Except.error "timeout", Except.error "timeout again",
        Except.ok "sig", Except.ok 7⟩ 0 5 "http://a").1.end_time = some 5 ∧
    (runWorker ⟨Except.ok 100, Except.error "timeout", Except.error "timeout again",
        Except.ok "sig", Except.ok 7⟩ 0 5 "http://a").1.end_system_time = some 5 ∧
    (runWorker ⟨Except.ok 100, Except.error "timeout", Except.error "timeout again",
        Except.ok "sig", Except.ok 7⟩ 0 5 "http://a").2 =
      [Event.getBlockHeight, Event.getLatestBlockhash,
       Event.getLatestBlockhashWithCommitment, Event.complete] ∧
    (runWorker ⟨Except.ok 100, Except.error "timeout", Except.error "timeout again",
        Except.ok "sig", Except.ok 7⟩ 0 5 "http://a").2.count
      Event.sendAndConfirmTransaction = 0 :=
  claim_C4_blockhash_double_failure_no_submission _ 0 5 "http://a" 100
    "timeout" "timeout again" rfl rfl rfl

/-- Claim C5: when submission succeeds (signature `sig` recorded) and
the subsequent confirmation-slot lookup fails with message `es`, the
Result still carries `sig` while also carrying the error string — the
late-stage error does not erase the transaction identifier. The
hypothesis covers both ways a blockhash can have been obtained. -/
theorem claim_C5_slot_failure_keeps_signature (env : RpcEnv)
    (startT endT : Nat) (endpoint : String) (height : Nat) (sig es : String)
    (hbh : env.get_block_height = Except.ok height)
    (hhash : (∃ b, env.get_latest_blockhash = Except.ok b) ∨
             (∃ e1 b, env.get_latest_blockhash = Except.error e1 ∧
                      env.get_latest_blockhash_with_commitment = Except.ok b))
    (hsend : env.send_and_confirm_transaction = Except.ok sig)
    (hslot : env.get_slot_with_commitment = Except.error es) :
    (runWorker env startT endT endpoint).1.transaction_signature = some sig ∧
    (runWorker env startT endT endpoint).1.error =
      some ("Failed to get transaction block height: " ++ es) := by
  rcases hhash with ⟨b, hb⟩ | ⟨e1, b, he1, hb⟩
  · simp [runWorker, workerSubmit, hbh, hb, hsend, hslot, BenchmarkResult.new,
          BenchmarkResult.set_error, BenchmarkResult.set_block_height,
          BenchmarkResult.set_transaction_signature, BenchmarkResult.complete]
  · simp [runWorker, workerSubmit, hbh, he1, hb, hsend, hslot, BenchmarkResult.new,
          BenchmarkResult.set_error, BenchmarkResult.set_block_height,
          BenchmarkResult.set_transaction_signature, BenchmarkResult.complete]

/-- Claim C5 witness: a concrete endpoint where everything succeeds up
to submission but the confirmation-slot lookup fails. -/
theorem claim_C5_slot_failure_keeps_signature_witness :
    (runWorker ⟨Except.ok 100, Except.ok "bh", Except.error "x", Except.ok "txsig",
        Except.error "slot down"⟩ 0 5 "http://a").1.transaction_signature = some "txsig" ∧
    (runWorker ⟨Except.ok 100, Except.ok "bh", Except.error "x", Except.ok "txsig",
        Except.error "slot down"⟩ 0 5 "http://a").1.error =
      some ("Failed to get transaction block height: " ++ "slot down") :=
  claim_C5_slot_failure_keeps_signature _ 0 5 "http://a" 100 "txsig" "slot down"
    rfl (Or.inl ⟨"bh", rfl⟩) rfl rfl

/-- Claim C6: on every worker code path the trace contains `complete`
exactly once, as its very last action (so after all probe attempts),
and the returned Result has both end timestamps set; moreover the end
timestamps are set only by `complete()`: construction leaves them
unset, every setter preserves them, and `complete` sets them. -/
theorem claim_C6_complete_exactly_once (env : RpcEnv) (startT endT : Nat)
    (endpoint : String) :
    (runWorker env startT endT endpoint).2.count Event.complete = 1 ∧
    (runWorker env startT endT endpoint).2.getLast? = some Event.complete ∧
    (runWorker env startT endT endpoint).1.end_time = some endT ∧
    (runWorker env startT endT endpoint).1.end_system_time = some endT ∧
    (∀ (ep : String) (t0 : Nat), (BenchmarkResult.new ep t0).end_time = none ∧
      (BenchmarkResult.new ep t0).end_system_time = none) ∧
    (∀ (r : BenchmarkResult) (t0 : Nat), (r.complete t0).end_time = some t0 ∧
      (r.complete t0).end_system_time = some t0) ∧
    (∀ (r : BenchmarkResult) (s : String), (r.set_error s).end_time = r.end_time ∧
      (r.set_error s).end_system_time = r.end_system_time) ∧
    (∀ (r : BenchmarkResult) (n : Nat), (r.set_block_height n).end_time = r.end_time ∧
      (r.set_block_height n).end_system_time = r.end_system_time) ∧
    (∀ (r : BenchmarkResult) (s : String),
      (r.set_transaction_signature s).end_time = r.end_time ∧
      (r.set_transaction_signature s).end_system_time = r.end_system_time) ∧
    (∀ (r : BenchmarkResult) (n : Nat),
      (r.set_transaction_block_height n).end_time = r.end_time ∧
      (r.set_transaction_block_height n).end_system_time = r.end_system_time) := by
  obtain ⟨h1, h2, h3, h4⟩ := runWorker_finalized env startT endT endpoint
  exact ⟨h1, h2, h3, h4, fun ep t0 => ⟨rfl, rfl⟩, fun r t0 => ⟨rfl, rfl⟩,
    fun r s => ⟨rfl, rfl⟩, fun r n => ⟨rfl, rfl⟩, fun r s => ⟨rfl, rfl⟩,
    fun r n => ⟨rfl, rfl⟩⟩

/-- Claim C7: if the credential file cannot be read or parsed
(`read_keypair_file` returns an error), `main`'s `unwrap` panics
immediately: the run's outcome is that error and nothing else — in
particular no report block and no worker trace is ever produced, for
any endpoint configuration, as `runMain` aborts before the parse/spawn
phase. -/
theorem claim_C7_keypair_failure_aborts_before_workers (e : String)
    (env : String → RpcEnv) (startT endT : Nat) (input : String) :
    runMain (Except.error e) env startT endT input = Except.error e ∧
    ∀ blocks traces,
      runMain (Except.error e) env startT endT input ≠ Except.ok (blocks, traces) :=
  ⟨rfl, fun blocks traces h => by simp [runMain] at h⟩

/-- Claim C8: `display` takes the Result read-only (it is a pure
function in this embedding, as `&self` methods without interior
mutability cannot mutate), and its output is a deterministic function
of the Result's fields: two Results that agree on every field render
identically, and however many times the rendering of one Result is
repeated, all the produced outputs are equal. -/
theorem claim_C8_display_deterministic (r₁ r₂ : BenchmarkResult)
    (hep : r₁.endpoint = r₂.endpoint)
    (hst : r₁.start_time = r₂.start_time)
    (hsst : r₁.start_system_time = r₂.start_system_time)
    (het : r₁.end_time = r₂.end_time)
    (hest : r₁.end_system_time = r₂.end_system_time)
    (hbh : r₁.block_height = r₂.block_height)
    (herr : r₁.error = r₂.error)
    (hsig : r₁.transaction_signature = r₂.transaction_signature)
    (htbh : r₁.transaction_block_height = r₂.transaction_block_height) :
    r₁.display = r₂.display ∧
    (∀ (n : Nat) (s₁ s₂ : String),
      s₁ ∈ List.replicate n r₁.display → s₂ ∈ List.replicate n r₁.display →
      s₁ = s₂) := by
  have heq : r₁ = r₂ := by
    cases r₁; cases r₂
    simp only at hep hst hsst het hest hbh herr hsig htbh
    subst hep hst hsst het hest hbh herr hsig htbh
    rfl
  subst heq
  refine ⟨rfl, fun n s₁ s₂ h₁ h₂ => ?_⟩
  rw [List.eq_of_mem_replicate h₁, List.eq_of_mem_replicate h₂]

/-- Claim C8 witness: the two field-equality hypotheses instantiated on
one concrete finalized Result. -/
theorem claim_C8_display_deterministic_witness :
    ((BenchmarkResult.new "http://a" 3).complete 8).display =
      ((BenchmarkResult.new "http://a" 3).complete 8).display ∧
    (∀ (n : Nat) (s₁ s₂ : String),
      s₁ ∈ List.replicate n ((BenchmarkResult.new "http://a" 3).complete 8).display →
      s₂ ∈ List.replicate n ((BenchmarkResult.new "http://a" 3).complete 8).display →
      s₁ = s₂) :=
  claim_C8_display_deterministic _ _ rfl rfl rfl rfl rfl rfl rfl rfl rfl

/-- Claim C9: on a Result carrying both a block height and an error
string (the late-stage partial-failure case), the status line is the
success form — the metric takes precedence — while the error string
still appears, in the separate "Error Details:" part of the output:
`display` contains both the rendered status and the rendered error
details as substrings. -/
theorem claim_C9_success_status_precedence (r : BenchmarkResult)
    (h : Nat) (e : String)
    (hbh : r.block_height = some h) (herr : r.error = some e) :
    r.status = "Success (Block Height: " ++ toString h ++ ")" ∧
    r.errorDetails = "Error Details: " ++ e ++ "\n" ∧
    (∃ l₁ l₂ : String,
      r.display =
        l₁ ++ ("\nStatus: " ++ ("Success (Block Height: " ++ toString h ++ ")")) ++ l₂) ∧
    (∃ l₃ l₄ : String, r.display = l₃ ++ ("Error Details: " ++ e ++ "\n") ++ l₄) := by
  have hst : r.status = "Success (Block Height: " ++ toString h ++ ")" := by
    simp [BenchmarkResult.status, hbh]
  have hed : r.errorDetails = "Error Details: " ++ e ++ "\n" := by
    simp [BenchmarkResult.errorDetails, herr]
  refine ⟨hst, hed, ?_, ?_⟩
  · refine ⟨"Endpoint: " ++ r.endpoint ++ "\nStart Time: " ++
      BenchmarkResult.format_system_time r.start_system_time ++ "\nEnd Time: " ++
      r.endTimeStr,
      "\nTransaction Signature: " ++ r.txSignatureStr ++ "\nTransaction Block Height: " ++
      r.txBlockHeightStr ++ "\n" ++ r.errorDetails ++ "Duration: " ++ r.durationStr ++
      "\n", ?_⟩
    rw [BenchmarkResult.display, hst]
    simp only [String.append_assoc]
  · refine ⟨"Endpoint: " ++ r.endpoint ++ "\nStart Time: " ++
      BenchmarkResult.format_system_time r.start_system_time ++ "\nEnd Time: " ++
      r.endTimeStr ++ "\nStatus: " ++ r.status ++ "\nTransaction Signature: " ++
      r.txSignatureStr ++ "\nTransaction Block Height: " ++ r.txBlockHeightStr ++ "\n",
      "Duration: " ++ r.durationStr ++ "\n", ?_⟩
    rw [BenchmarkResult.display, hed]
    simp only [String.append_assoc]

/-- Claim C9 witness: a concrete Result with block height 100 and a
late error, as the blockhash-failure path produces. -/
theorem claim_C9_success_status_precedence_witness :
    (((BenchmarkResult.new "http://a" 0).set_block_height 100).set_error
        "late failure").status = "Success (Block Height: " ++ toString 100 ++ ")" ∧
    (((BenchmarkResult.new "http://a" 0).set_block_height 100).set_error
        "late failure").errorDetails = "Error Details: " ++ "late failure" ++ "\n" ∧
    (∃ l₁ l₂ : String,
      (((BenchmarkResult.new "http://a" 0).set_block_height 100).set_error
          "late failure").display =
        l₁ ++ ("\nStatus: " ++ ("Success (Block Height: " ++ toString 100 ++ ")")) ++ l₂) ∧
    (∃ l₃ l₄ : String,
      (((BenchmarkResult.new "http://a" 0).set_block_height 100).set_error
          "late failure").display = l₃ ++ ("Error Details: " ++ "late failure" ++ "\n") ++ l₄) :=
  claim_C9_success_status_precedence _ 100 "late failure" rfl rfl

/-- Claim C10: `display` is a total function of an arbitrary Result
state — it is defined by exhaustive branching on the optional fields,
so no field combination can make it fail — and on the missing-field
branches it renders the documented placeholders: a missing end
timestamp renders the end time and the duration as "N/A", a Result
with neither block height nor error renders "Unknown Status", a
missing signature renders "No signature", and a missing transaction
block height renders "N/A". -/
theorem claim_C10_display_total_renders_defaults (r : BenchmarkResult) :
    (r.end_system_time = none → r.endTimeStr = "N/A") ∧
    (r.end_time = none → r.durationStr = "N/A") ∧
    (r.block_height = none → r.error = none → r.status = "Unknown Status") ∧
    (r.transaction_signature = none → r.txSignatureStr = "No signature") ∧
    (r.transaction_block_height = none → r.txBlockHeightStr = "N/A") := by
  refine ⟨fun h1 => ?_, fun h2 => ?_, fun h3 h4 => ?_, fun h5 => ?_, fun h6 => ?_⟩
  · simp [BenchmarkResult.endTimeStr, h1]
  · simp [BenchmarkResult.durationStr, BenchmarkResult.duration, h2]
  · simp [BenchmarkResult.status, h3, h4]
  · simp [BenchmarkResult.txSignatureStr, h5]
  · simp [BenchmarkResult.txBlockHeightStr, h6]

/-- Claim C10 witness: the freshly-constructed (non-finalized) Result
has every optional field missing, so every placeholder branch fires at
once. -/
theorem claim_C10_display_total_renders_defaults_witness :
    (BenchmarkResult.new "http://a" 0).endTimeStr = "N/A" ∧
    (BenchmarkResult.new "http://a" 0).durationStr = "N/A" ∧
    (BenchmarkResult.new "http://a" 0).status = "Unknown Status" ∧
    (BenchmarkResult.new "http://a" 0).txSignatureStr = "No signature" ∧
    (BenchmarkResult.new "http://a" 0).txBlockHeightStr = "N/A" :=
  ⟨(claim_C10_display_total_renders_defaults _).1 rfl,
   (claim_C10_display_total_renders_defaults _).2.1 rfl,
   (claim_C10_display_total_renders_defaults _).2.2.1 rfl rfl,
   (claim_C10_display_total_renders_defaults _).2.2.2.1 rfl,
   (claim_C10_display_total_renders_defaults _).2.2.2.2 rfl⟩

end SolanaRpcBenchmark
